import Mathlib

/-!
Shallow embedding of `src/web.py`, a single-page Streamlit script that
collects eight mix-design parameters for pervious concrete, assembles a
fixed-order feature vector, scales it, runs a pre-trained regression model
on it and renders a SHAP force plot of the per-feature contributions.

The script's external collaborators (the filesystem, `joblib.load`, the
Streamlit widgets, the scaler's `transform`, the model's `predict`, the
SHAP explainer, `shap.plots.force` and `st.pyplot`) are modelled as an
`Externals` record of deterministic, possibly failing functions; the
script body is a pure function of that record.  Every call the script
makes to a collaborator is recorded in a trace, the user-visible effects
(error banners, the result box, the embedded plot image) are recorded as
events, and matplotlib figures that have been created but not yet closed
are tracked in `openFigs`.  Exceptions are modelled with `Except`: an
`Except.error` escaping a function is an uncaught Python exception.
-/

namespace Web

/-- Python exceptions are modelled by their message. -/
abbrev Err := String

/-- An opaque deserialized artifact (the CatBoost model or the fitted scaler),
as returned by `joblib.load`. -/
structure Artifact where
  id : Nat
  deriving DecidableEq, Repr

/-- `input_scaled_df = pd.DataFrame(input_scaled, columns=feature_names)`
(web.py line 112): a 2-D table of rationals with named columns. -/
structure DataFrame where
  rows : List (List ℚ)
  columns : List String
  deriving DecidableEq, Repr

/-- The object returned by `explainer(input_scaled_df)` (web.py line 128):
per-sample attribution rows, per-sample base values, and feature names. -/
structure FullExplanation where
  values : List (List ℚ)
  base_values : List ℚ
  feature_names : List String
  deriving DecidableEq, Repr

/-- The argument record of the `shap.Explanation(...)` constructor call at
web.py lines 130-135: single-sample values, a single base value, the
(optional) original data, and feature names. -/
structure ExplanationArg where
  values : List ℚ
  base_values : ℚ
  data : Option DataFrame
  feature_names : List String
  deriving DecidableEq, Repr

/-- One call made by the script to an external collaborator. -/
inductive Call where
  | loadCall (path : String)
  | numberInputCall (label : String) (min_value value step : ℚ)
  | selectboxCall (label : String) (options : List String)
  | transformCall (arg : List (List ℚ))
  | predictCall (arg : List (List ℚ))
  | explainCall (arg : DataFrame)
  | forceCall (arg : ExplanationArg) (threshold : ℚ)
  | pyplotCall (fig : Nat)
  | closeCall (fig : Nat)
  deriving DecidableEq, Repr

/-- One user-visible effect of the script. -/
inductive Event where
  | errorBanner (msg : String)
  | resultBox (pred : ℚ)
  | plotImage (fig : Nat)
  | exitProcess
  deriving DecidableEq, Repr

/-- The deterministic external collaborators of web.py.  A result of
`Except.error e` models the call raising a Python exception `e`. -/
structure Externals where
  os_path_exists : String → Bool
  joblib_load : String → Except Err Artifact
  number_input : String → ℚ → ℚ → ℚ → ℚ
  selectbox : String → List String → String
  transform : Artifact → List (List ℚ) → Except Err (List (List ℚ))
  predict : Artifact → List (List ℚ) → Except Err (List ℚ)
  explainer : Artifact → DataFrame → Except Err FullExplanation
  plots_force : ExplanationArg → ℚ → Except Err Nat
  st_pyplot : Nat → Except Err Unit

/-- Well-formedness of the Streamlit widget collaborators: `st.number_input`
never returns a value below its `min_value`, and `st.selectbox` returns one
of the offered options. -/
structure ExternalsWF (ext : Externals) : Prop where
  number_input_min : ∀ label mn v st, mn ≤ ext.number_input label mn v st
  selectbox_mem : ∀ label opts, opts ≠ [] → ext.selectbox label opts ∈ opts

/-- `MODEL_PATH = "final_catboost_model.pkl"` (web.py line 71). -/
def MODEL_PATH : String := "final_catboost_model.pkl"

/-- `SCALER_PATH = "scaler.pkl"` (web.py line 72). -/
def SCALER_PATH : String := "scaler.pkl"

/-- The configuration-error banner of web.py line 75. -/
def missingMsg : String := "⚠️ Model or scaler file is missing. Please check the file paths."

/-- The pipeline's user-facing error message for a caught exception
(web.py line 148). -/
def excMsg (e : Err) : String :=
  "❌ An error occurred during prediction or SHAP computation: " ++ e

/-- `feature_names` (web.py line 107). -/
def feature_names : List String :=
  ["W/C", "A/C", "Dmin", "ASR", "Porosity", "Shape", "Diameter", "Height"]

/-- The eight user-supplied scalar inputs of the strength form
(web.py lines 88-97); `shape_option` is the raw selectbox string. -/
structure Inputs where
  W_C : ℚ
  A_C : ℚ
  Dmin : ℚ
  ASR : ℚ
  Porosity : ℚ
  shape_option : String
  Diameter : ℚ
  Height : ℚ
  deriving DecidableEq, Repr

/-- `Shape = 1 if shape_option == "Cylinder" else 2` (web.py line 96). -/
def Shape (shape_option : String) : ℚ :=
  if shape_option = "Cylinder" then 1 else 2

/-- The single row of the assembled feature vector (web.py line 110). -/
def input_row (i : Inputs) : List ℚ :=
  [i.W_C, i.A_C, i.Dmin, i.ASR, i.Porosity, Shape i.shape_option, i.Diameter, i.Height]

/-- `input_data = np.array([[W_C, A_C, Dmin, ASR, Porosity, Shape, Diameter, Height]])`
(web.py line 110): a 2-D array with one row. -/
def input_data (i : Inputs) : List (List ℚ) := [input_row i]

/-- Reading the eight widgets (web.py lines 88-97).  Default values and
steps are those of the source; `min_value=0.0` for every numeric widget. -/
def gatherInputs (ext : Externals) : Inputs where
  W_C := ext.number_input "W/C (Water–Cement Ratio)" 0 (3/10) (1/100)
  Dmin := ext.number_input "Dmin (Minimum Aggregate Size)" 0 (475/100) (1/100)
  Porosity := ext.number_input "Porosity" 0 15 (1/10)
  Diameter := ext.number_input "Size (Cylinder diameter / Cube side)" 0 100 1
  A_C := ext.number_input "A/C (Aggregate–Cement Ratio)" 0 3 (1/10)
  ASR := ext.number_input "ASR (Aggregate Size Ratio)" 0 (5/10) (1/100)
  shape_option := ext.selectbox "Specimen Shape" ["Cylinder", "Cube"]
  Height := ext.number_input "Specimen Height" 0 200 1

/-- The widget calls issued while building the form (web.py lines 88-97),
in source order (column 1 first, then column 2). -/
def widgetCalls : List Call :=
  [ .numberInputCall "W/C (Water–Cement Ratio)" 0 (3/10) (1/100),
    .numberInputCall "Dmin (Minimum Aggregate Size)" 0 (475/100) (1/100),
    .numberInputCall "Porosity" 0 15 (1/10),
    .numberInputCall "Size (Cylinder diameter / Cube side)" 0 100 1,
    .numberInputCall "A/C (Aggregate–Cement Ratio)" 0 3 (1/10),
    .numberInputCall "ASR (Aggregate Size Ratio)" 0 (5/10) (1/100),
    .selectboxCall "Specimen Shape" ["Cylinder", "Cube"],
    .numberInputCall "Specimen Height" 0 200 1 ]

/-- `contribution_threshold=0`, the keyword argument of the
`shap.plots.force` call (web.py line 141). -/
def contribution_threshold : ℚ := 0

/-- The `shap.Explanation(values=full.values[0], base_values=full.base_values[0],
data=None, feature_names=full.feature_names)` construction of web.py
lines 130-135.  Indexing an empty axis raises. -/
def plot_explanation (full : FullExplanation) : Except Err ExplanationArg :=
  match full.values, full.base_values with
  | v0 :: _, b0 :: _ =>
      .ok { values := v0, base_values := b0, data := none,
            feature_names := full.feature_names }
  | _, _ => .error "IndexError"

/-- The accumulated observable state of one script run: the calls made to
collaborators, the user-visible events, and the matplotlib figures created
but not yet closed. -/
structure RunState where
  trace : List Call
  events : List Event
  openFigs : List Nat
  deriving DecidableEq, Repr

/-- The body of the `try:` block of the `predict_button` handler
(web.py lines 106-145): scale, predict, show the result box, explain,
build the wrapped explanation, draw the force plot, embed it, close the
figure.  Returns the accumulated state together with `Except.error e`
when a step raised the exception `e` (to be caught by the handler). -/
def tryBody (ext : Externals) (model scaler : Artifact) (i : Inputs) :
    RunState × Except Err Unit :=
  let data := input_data i
  match ext.transform scaler data with
  | .error e => (⟨[.transformCall data], [], []⟩, .error e)
  | .ok input_scaled =>
    let tr1 : List Call := [.transformCall data, .predictCall input_scaled]
    match ext.predict model input_scaled with
    | .error e => (⟨tr1, [], []⟩, .error e)
    | .ok preds =>
      match preds with
      | [] => (⟨tr1, [], []⟩, .error "IndexError")
      | prediction :: _ =>
        let input_scaled_df : DataFrame := ⟨input_scaled, feature_names⟩
        let ev1 : List Event := [.resultBox prediction]
        let tr2 := tr1 ++ [.explainCall input_scaled_df]
        match ext.explainer model input_scaled_df with
        | .error e => (⟨tr2, ev1, []⟩, .error e)
        | .ok full =>
          match plot_explanation full with
          | .error e => (⟨tr2, ev1, []⟩, .error e)
          | .ok pe =>
            let tr3 := tr2 ++ [.forceCall pe contribution_threshold]
            match ext.plots_force pe contribution_threshold with
            | .error e => (⟨tr3, ev1, []⟩, .error e)
            | .ok fig =>
              let tr4 := tr3 ++ [.pyplotCall fig]
              match ext.st_pyplot fig with
              | .error e => (⟨tr4, ev1, [fig]⟩, .error e)
              | .ok _ =>
                (⟨tr4 ++ [.closeCall fig], ev1 ++ [.plotImage fig], []⟩, .ok ())

/-- The `if predict_button: try ... except Exception as e: st.error(...)`
handler (web.py lines 105-148): every exception from the body is caught
here and turned into one error banner; nothing escapes. -/
def predict_button_handler (ext : Externals) (model scaler : Artifact) (i : Inputs) :
    RunState :=
  let r := tryBody ext model scaler i
  match r.2 with
  | .ok _ => r.1
  | .error e => { r.1 with events := r.1.events ++ [.errorBanner (excMsg e)] }

/-- The whole script (web.py lines 74-148): the existence check on the two
artifact paths, the guarded load of the artifact pair, the widgets, and
the button handler.  The second component is `Except.error e` when an
exception escapes the script uncaught (only `joblib.load` can do so). -/
def script (ext : Externals) (pressed : Bool) : RunState × Except Err Unit :=
  if !ext.os_path_exists MODEL_PATH || !ext.os_path_exists SCALER_PATH then
    (⟨[], [.errorBanner missingMsg], []⟩, .ok ())
  else
    match ext.joblib_load MODEL_PATH with
    | .error e => (⟨[.loadCall MODEL_PATH], [], []⟩, .error e)
    | .ok model =>
      match ext.joblib_load SCALER_PATH with
      | .error e => (⟨[.loadCall MODEL_PATH, .loadCall SCALER_PATH], [], []⟩, .error e)
      | .ok scaler =>
        let loadTrace : List Call := [.loadCall MODEL_PATH, .loadCall SCALER_PATH]
        let i := gatherInputs ext
        if pressed then
          let run := predict_button_handler ext model scaler i
          (⟨loadTrace ++ widgetCalls ++ run.trace, run.events, run.openFigs⟩, .ok ())
        else
          (⟨loadTrace ++ widgetCalls, [], []⟩, .ok ())

/-- The arguments of the `scaler.transform` calls recorded in a trace. -/
def transformArgs (tr : List Call) : List (List (List ℚ)) :=
  tr.filterMap fun c => match c with | .transformCall a => some a | _ => none

/-- The `contribution_threshold` arguments of the `shap.plots.force`
calls recorded in a trace. -/
def forceThresholds (tr : List Call) : List ℚ :=
  tr.filterMap fun c => match c with | .forceCall _ th => some th | _ => none

/-- The wrapped-explanation arguments of the `shap.plots.force` calls
recorded in a trace. -/
def forceArgs (tr : List Call) : List ExplanationArg :=
  tr.filterMap fun c => match c with | .forceCall a _ => some a | _ => none

/-- The predicted values shown in result boxes. -/
def predictions (evs : List Event) : List ℚ :=
  evs.filterMap fun e => match e with | .resultBox p => some p | _ => none

/-- Whether an event is an error banner. -/
def isErrorBanner (e : Event) : Bool :=
  match e with | .errorBanner _ => true | _ => false

/-- Whether an event is a process exit. -/
def isExit (e : Event) : Bool :=
  match e with | .exitProcess => true | _ => false

/-- Whether a trace ends with the figure being closed immediately after it
was captured by `st.pyplot`. -/
def closesAfterCapture (tr : List Call) : Bool :=
  match tr.getLast?, tr.dropLast.getLast? with
  | some (.closeCall f), some (.pyplotCall g) => f == g
  | _, _ => false

/-- How the matplotlib force-plot renderer of the external SHAP library
uses `contribution_threshold`: a feature's label is omitted from the
diagram exactly when the magnitude of its contribution is below the
threshold times the total magnitude of all contributions. -/
def hiddenInForcePlot (threshold : ℚ) (values : List ℚ) (v : ℚ) : Bool :=
  decide (|v| < threshold * (values.map fun x => |x|).sum)

/-! Concrete collaborators and inputs, used to exercise the model. -/

/-- An opaque artifact value. -/
def a0 : Artifact := ⟨0⟩

/-- A benign set of collaborators: both files exist, loads succeed, every
widget returns its minimum (the selectbox its first option), and every
pipeline stage succeeds. -/
def extW : Externals where
  os_path_exists := fun _ => true
  joblib_load := fun _ => .ok a0
  number_input := fun _ mn _ _ => mn
  selectbox := fun _ opts => opts.headD "Cylinder"
  transform := fun _ d => .ok d
  predict := fun _ _ => .ok [0]
  explainer := fun _ df => .ok ⟨[[1, 2]], [3], df.columns⟩
  plots_force := fun _ _ => .ok 1
  st_pyplot := fun _ => .ok ()

/-- Collaborators where both artifact files are absent. -/
def extMissing : Externals := { extW with os_path_exists := fun _ => false }

/-- Collaborators where deserializing an artifact raises. -/
def extLoadFail : Externals :=
  { extW with joblib_load := fun _ => .error "UnpicklingError" }

/-- Collaborators where embedding the captured figure raises. -/
def extPyplotFail : Externals :=
  { extW with st_pyplot := fun _ => .error "PyplotError" }

/-- The scenario inputs of the form's default values, with shape Cylinder. -/
def iC : Inputs := ⟨3/10, 3, 475/100, 5/10, 15, "Cylinder", 100, 200⟩

/-- The same numeric inputs with shape option Cube. -/
def iCube : Inputs := ⟨3/10, 3, 475/100, 5/10, 15, "Cube", 100, 200⟩

/-- The same numeric inputs with an impossible shape-option string, which
the selector maps to 2 just like Cube. -/
def iBox : Inputs := ⟨3/10, 3, 475/100, 5/10, 15, "Box", 100, 200⟩

/-- A concrete two-sample-free full explanation. -/
def fullC : FullExplanation := ⟨[[1, 2, 3]], [4], ["a", "b", "c"]⟩

/-- The wrapped explanation web.py builds from `fullC`. -/
def peC : ExplanationArg := ⟨[1, 2, 3], 4, none, ["a", "b", "c"]⟩

/-! Helper lemmas shared by the claim theorems. -/

/-- The benign collaborators satisfy the widget well-formedness contract. -/
theorem extW_wf : ExternalsWF extW := by
  constructor
  · intro label mn v st
    exact le_refl mn
  · intro label opts h
    match opts with
    | [] => exact absurd rfl h
    | a :: as => simp [extW, List.headD]

/-- The shape encoding is always 1 or 2. -/
theorem Shape_cases (s : String) : Shape s = 1 ∨ Shape s = 2 := by
  unfold Shape
  split
  · exact Or.inl rfl
  · exact Or.inr rfl

/-- The shape encoding is nonnegative. -/
theorem Shape_nonneg (s : String) : (0 : ℚ) ≤ Shape s := by
  rcases Shape_cases s with h | h <;> rw [h] <;> norm_num

/-- The wrapped explanation always has its `data` field dropped. -/
theorem plot_explanation_data_none (full : FullExplanation) (pe : ExplanationArg)
    (h : plot_explanation full = .ok pe) : pe.data = none := by
  unfold plot_explanation at h
  rcases hv : full.values with _ | ⟨v0, vs⟩ <;> rcases hb : full.base_values with _ | ⟨b0, bs⟩ <;>
    rw [hv, hb] at h <;> simp_all
  exact h.symm ▸ rfl

/-- The try-block body emits no error banner and no process exit itself. -/
theorem tryBody_events_clean (ext : Externals) (model scaler : Artifact) (i : Inputs) :
    (tryBody ext model scaler i).1.events.filter isErrorBanner = []
    ∧ (tryBody ext model scaler i).1.events.filter isExit = [] := by
  constructor <;>
    · simp only [tryBody]
      repeat' split
      all_goals simp [isErrorBanner, isExit]

/-! The claim theorems. -/

/-- C1: every prediction run assembles a feature vector of exactly 8 entries
in the fixed order W/C, A/C, Dmin, ASR, Porosity, Shape, Diameter, Height
(the strength schema order of `feature_names`), and that vector (as the
single row of `input_data`) is exactly what is passed to the scaler's
`transform`, which is called exactly once. -/
theorem c1_strength_vector_assembly (ext : Externals) (model scaler : Artifact)
    (i : Inputs) :
    transformArgs (tryBody ext model scaler i).1.trace = [input_data i]
    ∧ input_data i
        = [[i.W_C, i.A_C, i.Dmin, i.ASR, i.Porosity, Shape i.shape_option,
            i.Diameter, i.Height]]
    ∧ (input_row i).length = 8
    ∧ feature_names
        = ["W/C", "A/C", "Dmin", "ASR", "Porosity", "Shape", "Diameter", "Height"] := by
  refine ⟨?_, rfl, rfl, rfl⟩
  simp only [tryBody]
  repeat' split
  all_goals simp [transformArgs]

/-- C2: if either artifact file is absent, the script shows only the
configuration-error banner, makes no collaborator call at all (no load, no
widget, no transform, no predict), leaves no figure open, raises nothing
uncaught, and emits no process exit. -/
theorem c2_missing_artifact_short_circuit (ext : Externals) (pressed : Bool)
    (h : ext.os_path_exists MODEL_PATH = false ∨ ext.os_path_exists SCALER_PATH = false) :
    script ext pressed = (⟨[], [.errorBanner missingMsg], []⟩, .ok ())
    ∧ (script ext pressed).1.events.filter isExit = [] := by
  have hs : script ext pressed = (⟨[], [.errorBanner missingMsg], []⟩, .ok ()) := by
    rcases h with h | h <;> simp [script, h]
  refine ⟨hs, ?_⟩
  rw [hs]
  simp [isExit]

/-- C2 witness: with both files absent, the script run is exactly the
configuration-error banner and nothing else. -/
theorem c2_witness :
    script extMissing true = (⟨[], [.errorBanner missingMsg], []⟩, .ok ())
    ∧ (script extMissing true).1.events.filter isExit = [] :=
  c2_missing_artifact_short_circuit extMissing true (Or.inl rfl)

/-- C3: the button handler catches every exception of the try-block body at
the single boundary: its events are the body's events followed by exactly
one error banner when the body raised (and nothing extra otherwise), the
body itself emits no banner, and no run of the handler exits the
process. -/
theorem c3_exception_boundary (ext : Externals) (model scaler : Artifact)
    (i : Inputs) :
    (predict_button_handler ext model scaler i).events
      = (tryBody ext model scaler i).1.events
        ++ (match (tryBody ext model scaler i).2 with
            | .ok _ => []
            | .error e => [Event.errorBanner (excMsg e)])
    ∧ (tryBody ext model scaler i).1.events.filter isErrorBanner = []
    ∧ (predict_button_handler ext model scaler i).events.filter isExit = [] := by
  have h1 :
      (predict_button_handler ext model scaler i).events
        = (tryBody ext model scaler i).1.events
          ++ (match (tryBody ext model scaler i).2 with
              | .ok _ => []
              | .error e => [Event.errorBanner (excMsg e)]) := by
    simp only [predict_button_handler]
    cases h : (tryBody ext model scaler i).2 with
    | error e => simp [h]
    | ok u => simp [h]
  refine ⟨h1, (tryBody_events_clean ext model scaler i).1, ?_⟩
  rw [h1, List.filter_append, (tryBody_events_clean ext model scaler i).2]
  cases (tryBody ext model scaler i).2 <;> simp [isExit]

/-- C4: the pipeline is deterministic in the assembled vector: two runs
against the same collaborators and the same loaded artifacts whose input
vectors coincide produce the same run entirely, in particular the same
displayed predictions. -/
theorem c4_deterministic (ext : Externals) (model scaler : Artifact)
    (i j : Inputs) (h : input_data i = input_data j) :
    tryBody ext model scaler i = tryBody ext model scaler j
    ∧ predictions (tryBody ext model scaler i).1.events
        = predictions (tryBody ext model scaler j).1.events := by
  have he : tryBody ext model scaler i = tryBody ext model scaler j := by
    simp only [tryBody, h]
  exact ⟨he, by rw [he]⟩

/-- C4 witness: two concrete input records with the same vector (the shape
strings Cube and Box both encode to 2) give identical runs. -/
theorem c4_witness :
    tryBody extW a0 a0 iCube = tryBody extW a0 a0 iBox
    ∧ predictions (tryBody extW a0 a0 iCube).1.events
        = predictions (tryBody extW a0 a0 iBox).1.events :=
  c4_deterministic extW a0 a0 iCube iBox
    (by simp [input_data, input_row, iCube, iBox, Shape])

/-- C5: the shape selector encodes Cylinder as 1 and Cube as 2, the
encoding never produces any value other than 1 or 2, and under the widget
contract the selectbox only ever yields the strings Cylinder or Cube. -/
theorem c5_shape_mapping :
    Shape "Cylinder" = 1 ∧ Shape "Cube" = 2
    ∧ (∀ s : String, Shape s = 1 ∨ Shape s = 2)
    ∧ ∀ ext : Externals, ExternalsWF ext →
        (gatherInputs ext).shape_option = "Cylinder"
        ∨ (gatherInputs ext).shape_option = "Cube" := by
  refine ⟨rfl, rfl, Shape_cases, ?_⟩
  intro ext hwf
  have h := hwf.selectbox_mem "Specimen Shape" ["Cylinder", "Cube"] (by simp)
  simpa [gatherInputs] using h

/-- C5 witness: the benign collaborators satisfy the widget contract, and
there the selector indeed yields Cylinder or Cube. -/
theorem c5_witness :
    (gatherInputs extW).shape_option = "Cylinder"
    ∨ (gatherInputs extW).shape_option = "Cube" :=
  c5_shape_mapping.2.2.2 extW extW_wf

/-- C6: the wrapped explanation carries only the first sample's
contribution values, its base value and the feature names, with the
original input data dropped (`data = None`); and every explanation object
a run passes to the force-plot renderer has its data dropped. -/
theorem c6_explanation_drops_data (ext : Externals) (model scaler : Artifact)
    (i : Inputs) (full : FullExplanation) (pe : ExplanationArg)
    (h : plot_explanation full = .ok pe) :
    pe.data = none
    ∧ full.values.head? = some pe.values
    ∧ full.base_values.head? = some pe.base_values
    ∧ pe.feature_names = full.feature_names
    ∧ (forceArgs (tryBody ext model scaler i).1.trace).all
        (fun a => a.data.isNone) = true := by
  have hall : (forceArgs (tryBody ext model scaler i).1.trace).all
      (fun a => a.data.isNone) = true := by
    simp only [tryBody]
    cases h1 : ext.transform scaler (input_data i) with
    | error e => simp [forceArgs, h1]
    | ok s =>
      cases h2 : ext.predict model s with
      | error e => simp [forceArgs, h1, h2]
      | ok preds =>
        cases preds with
        | nil => simp [forceArgs, h1, h2]
        | cons p tl =>
          cases h3 : ext.explainer model ⟨s, feature_names⟩ with
          | error e => simp [forceArgs, h1, h2, h3]
          | ok full2 =>
            cases h4 : plot_explanation full2 with
            | error e => simp [forceArgs, h1, h2, h3, h4]
            | ok pe2 =>
              have hd := plot_explanation_data_none full2 pe2 h4
              cases h5 : ext.plots_force pe2 contribution_threshold with
              | error e => simp [forceArgs, h1, h2, h3, h4, h5, hd]
              | ok fig =>
                cases h6 : ext.st_pyplot fig with
                | error e => simp [forceArgs, h1, h2, h3, h4, h5, h6, hd]
                | ok u => simp [forceArgs, h1, h2, h3, h4, h5, h6, hd]
  rcases hv : full.values with _ | ⟨v0, vs⟩ <;>
    rcases hb : full.base_values with _ | ⟨b0, bs⟩ <;>
      simp [plot_explanation, hv, hb] at h
  subst h
  simp [hv, hb, hall]

/-- C6 witness: a concrete full explanation, the wrapped explanation built
from it, and a concrete run, with all five conjuncts instantiated. -/
theorem c6_witness :
    peC.data = none
    ∧ fullC.values.head? = some peC.values
    ∧ fullC.base_values.head? = some peC.base_values
    ∧ peC.feature_names = fullC.feature_names
    ∧ (forceArgs (tryBody extW a0 a0 iC).1.trace).all
        (fun a => a.data.isNone) = true :=
  c6_explanation_drops_data extW a0 a0 iC fullC peC (by rfl)

/-- C7 counterexample: when embedding the captured image raises, the
handler's error path finishes with the figure still open — so not every
exit path of the render step closes the figure, contrary to the claim. -/
theorem c7_counterexample :
    (predict_button_handler extPyplotFail a0 a0 iC).openFigs = [1]
    ∧ (predict_button_handler extPyplotFail a0 a0 iC).events.filter isErrorBanner
        = [.errorBanner (excMsg "PyplotError")] := by
  constructor <;> rfl

/-- C7 amended: on every successful run the figure is closed immediately
after the image is captured and no figure is left open; a run that fails
after the figure was created (e.g. while embedding the image) can leave
it open. -/
theorem c7_success_path_closes (ext : Externals) (model scaler : Artifact)
    (i : Inputs) (h : (tryBody ext model scaler i).2 = .ok ()) :
    (tryBody ext model scaler i).1.openFigs = []
    ∧ closesAfterCapture (tryBody ext model scaler i).1.trace = true := by
  revert h
  simp only [tryBody]
  repeat' split
  all_goals intro h
  all_goals simp_all [closesAfterCapture, List.getLast?_concat, List.dropLast_concat]

/-- C7 witness: a concrete successful run closes its figure right after
capture and leaves nothing open. -/
theorem c7_witness :
    (tryBody extW a0 a0 iC).1.openFigs = []
    ∧ closesAfterCapture (tryBody extW a0 a0 iC).1.trace = true :=
  c7_success_path_closes extW a0 a0 iC (by rfl)

/-- C8 counterexample: the force plot is invoked with
`contribution_threshold=0`, and under the SHAP renderer's thresholding
rule a contribution of one five-millionth of the total magnitude is still
not hidden — negligible contributions are not hidden. -/
theorem c8_counterexample :
    contribution_threshold = 0
    ∧ hiddenInForcePlot contribution_threshold [5, 1/1000000] (1/1000000) = false := by
  refine ⟨rfl, ?_⟩
  simp only [hiddenInForcePlot, contribution_threshold, zero_mul,
    decide_eq_false_iff_not, not_lt]
  exact abs_nonneg _

/-- C8 amended: every force-plot call of every run passes the explicit
threshold 0, and with threshold 0 the renderer hides no contribution at
all, whatever its magnitude — the thresholding mechanism is disabled. -/
theorem c8_threshold_zero_hides_nothing :
    (∀ (ext : Externals) (model scaler : Artifact) (i : Inputs),
        (forceThresholds (tryBody ext model scaler i).1.trace).all
            (fun th => th == 0) = true)
    ∧ ∀ (values : List ℚ) (v : ℚ),
        hiddenInForcePlot contribution_threshold values v = false := by
  constructor
  · intro ext model scaler i
    simp only [tryBody]
    repeat' split
    all_goals simp [forceThresholds, contribution_threshold]
  · intro values v
    simp only [hiddenInForcePlot, contribution_threshold, zero_mul,
      decide_eq_false_iff_not, not_lt]
    exact abs_nonneg _

/-- C9: under the widget contract (every numeric widget returns at least
its minimum 0.0, the selectbox one of its options), every entry of the
assembled feature vector is nonnegative. -/
theorem c9_nonnegative_inputs (ext : Externals) (h : ExternalsWF ext) :
    ((input_row (gatherInputs ext)).all fun x => decide (0 ≤ x)) = true := by
  have hn := h.number_input_min
  simp only [input_row, gatherInputs, List.all_cons, List.all_nil,
    Bool.and_eq_true, decide_eq_true_eq]
  exact ⟨hn _ 0 _ _, hn _ 0 _ _, hn _ 0 _ _, hn _ 0 _ _, hn _ 0 _ _,
    Shape_nonneg _, hn _ 0 _ _, hn _ 0 _ _, trivial⟩

/-- C9 witness: the benign collaborators satisfy the widget contract and
their assembled vector is entrywise nonnegative. -/
theorem c9_witness :
    ((input_row (gatherInputs extW)).all fun x => decide (0 ≤ x)) = true :=
  c9_nonnegative_inputs extW extW_wf

/-- C10: with both files present, a deserialization failure of either
artifact escapes the script uncaught — the run aborts with that very
exception, no pipeline step runs, and no user-facing pipeline error
banner (indeed no event at all) is produced. -/
theorem c10_load_outside_boundary (ext : Externals) (pressed : Bool) (e : Err)
    (hm : ext.os_path_exists MODEL_PATH = true)
    (hs : ext.os_path_exists SCALER_PATH = true) :
    (ext.joblib_load MODEL_PATH = .error e →
        script ext pressed = (⟨[.loadCall MODEL_PATH], [], []⟩, .error e))
    ∧ ∀ m : Artifact, ext.joblib_load MODEL_PATH = .ok m →
        ext.joblib_load SCALER_PATH = .error e →
        script ext pressed
          = (⟨[.loadCall MODEL_PATH, .loadCall SCALER_PATH], [], []⟩, .error e) := by
  constructor
  · intro hl
    simp [script, hm, hs, hl]
  · intro m hm2 hl
    simp [script, hm, hs, hm2, hl]

/-- C10 witness: with a corrupt model artifact, the script run is exactly
the one load attempt and the uncaught exception, with no events. -/
theorem c10_witness :
    script extLoadFail true
      = (⟨[.loadCall MODEL_PATH], [], []⟩, .error "UnpicklingError") :=
  (c10_load_outside_boundary extLoadFail true "UnpicklingError" rfl rfl).1 rfl

end Web
